import Mathlib

/-!
Shallow embedding of the disaster-recovery orchestration script
`src/infrastructure/backup-dr/dr-automation.py` (class `DisasterRecoveryAutomation`).

Modelling conventions:
* Each outbound cloud-control-plane call is an element of `Call`; every embedded
  function returns, besides its result, the ordered list of control-plane calls it
  made and the ordered list of notifications it published via `send_notification`
  (the SNS sink is tracked separately from the other collaborators, mirroring the
  spec's distinction between collaborators and the notification sink).
* The outcomes of the external collaborators are supplied by an environment `Env`:
  a `describe_db_instances` / `get_metric_statistics` / `promote_read_replica`
  invocation either returns a well-formed response or raises, which we embed as
  `Except String`.  The poll loop's successive `describe_db_instances` answers are
  the function `Env.poll`.
* Python exceptions are `Except.error` carrying `str(e)`; a `try/except` block is
  a `match` on the embedded outcome.
* `send_notification` swallows its own SNS errors (they are only printed), so it is
  embedded as an unconditional append to the notification log.  The timestamp and
  environment tag interpolated into every message are per-invocation constants and
  are omitted from the embedded message strings.
* `Env.drConnFault` / `Env.alertFault` inject an exception into the body of the
  `try` block of the `test_dr_connectivity` / `test_monitoring_alerts` probe
  (the scenario the spec exercises by mocking); in a fault-free run both are `none`
  and the probes behave exactly as the straight-line source.
-/

deriving instance DecidableEq for Except

namespace DrAuto

/-- Well-formed payload of a `describe_db_instances` response, restricted to the
fields the script reads: `DBInstances[0]['DBInstanceStatus']`, `['Endpoint']['Address']`,
`['MultiAZ']`, `['ReadReplicaSourceDBInstanceIdentifier']`. -/
structure DBInst where
  status : String
  endpoint : Option String
  multiAZ : Bool
  readReplicaSource : Option String
deriving DecidableEq

/-- A message published through `send_notification` (message text and severity tag). -/
structure Notification where
  message : String
  severity : String
deriving DecidableEq

/-- Outbound control-plane calls the script can make (the SNS notification sink is
tracked separately).  `createReplica` and `dnsWrite` are never emitted by the code;
they are present so that frame properties ("no replica-creation / DNS-write call")
are statable. -/
inductive Call where
  | describePrimary
  | describeDr
  | getMetrics
  | promoteReplica
  | createReplica
  | dnsWrite
deriving DecidableEq

/-- Environment: outcomes of the external collaborators for one invocation. -/
structure Env where
  /-- Outcome of `rds_primary.describe_db_instances` for the primary instance. -/
  primaryDb : Except String DBInst
  /-- Outcome of `rds_dr.describe_db_instances` for the DR replica. -/
  drReplica : Except String DBInst
  /-- Outcome of `cloudwatch.get_metric_statistics`: the `Average` values of the
  returned `Datapoints`, in order (seconds of replica lag). -/
  lagData : Except String (List Int)
  /-- Outcome of `rds_dr.promote_read_replica`. -/
  promote : Except String Unit
  /-- Status string returned by the n-th `describe_db_instances` poll inside
  `wait_for_db_status`. -/
  poll : Nat → String
  /-- When `some e`, the body of the `try` block of `test_dr_connectivity`
  raises `e` (fault injection, as in a mocked test); `none` in a fault-free run. -/
  drConnFault : Option String
  /-- When `some e`, the body of the `try` block of `test_monitoring_alerts`
  raises `e`; `none` in a fault-free run. -/
  alertFault : Option String
  /-- The `DB_IDENTIFIER` configuration value. -/
  dbIdentifier : String

/-- Result record of `check_primary_database` / `check_dr_replica` /
`check_route53_health` (fields present in the various returned dicts, absent ones
`none`). -/
structure DbCheck where
  healthy : Bool
  status : Option String := none
  endpoint : Option String := none
  multi_az : Option Bool := none
  read_replica_source : Option String := none
  error : Option String := none
deriving DecidableEq

/-- Result record of `check_replication_lag`. -/
structure LagCheck where
  healthy : Bool
  lag_seconds : Option Int := none
  threshold_seconds : Option Int := none
  error : Option String := none
deriving DecidableEq

/-- Result record of one `test_disaster_recovery` probe (union of the fields of the
four probe result dicts, with defaults for absent keys). -/
structure ProbeResult where
  success : Bool
  error : Option String := none
  details : Option DbCheck := none
  simulated_steps : List String := []
  alert_sent : Bool := false
  backups_verified : Bool := false
deriving DecidableEq

/-- The `test_results` dict built by `test_disaster_recovery`, with its four keys. -/
structure DrTestReport where
  dr_replica_connectivity : ProbeResult
  failover_simulation : ProbeResult
  monitoring_alerts : ProbeResult
  backup_integrity : ProbeResult
deriving DecidableEq

/-- The `health_status` dict built by `perform_health_check`. -/
structure HealthStatus where
  primary_db : DbCheck
  dr_replica : DbCheck
  replication_lag : LagCheck
  route53_health : DbCheck
  overall_status : String
deriving DecidableEq

/-- JSON body of a handler result, one constructor per body shape the script builds. -/
inductive Body where
  | health (h : HealthStatus)
  | failover (message : String) (steps_completed : List String)
  | failback (message : String) (steps_completed : List String)
  | drTest (test_results : DrTestReport) (overall_success : Bool)
  | error (msg : String)
deriving DecidableEq

/-- The `{statusCode, body}` dict returned to the Lambda caller. -/
structure HttpResult where
  statusCode : Nat
  body : Body
deriving DecidableEq

/-- Observable outcome of one procedure: its result (or the exception it raises),
the control-plane calls made, the notifications published, and the final value of
its local `steps_completed` list (empty for procedures that have none). -/
structure ProcOut where
  res : Except String HttpResult
  calls : List Call
  notes : List Notification
  steps : List String := []
deriving DecidableEq

/-- The four procedures `handler` can dispatch to. -/
inductive ProcName where
  | perform_health_check
  | initiate_failover
  | initiate_failback
  | test_disaster_recovery
deriving DecidableEq

/-- Observable outcome of a full `handler` invocation; `dispatched` records which
procedures were entered (instrumentation of the dispatch branch taken). -/
structure HandlerOut where
  result : HttpResult
  calls : List Call
  notes : List Notification
  dispatched : List ProcName
deriving DecidableEq

/-- Embeds `check_primary_database` (lines 92-112): describe the primary instance;
healthy iff its status is `available`; an exception yields `{healthy: False, error}`. -/
def check_primary_database (env : Env) : DbCheck × List Call :=
  match env.primaryDb with
  | .ok inst =>
      ({ healthy := inst.status == "available", status := some inst.status,
         endpoint := inst.endpoint, multi_az := some inst.multiAZ }, [.describePrimary])
  | .error e => ({ healthy := false, error := some e }, [.describePrimary])

/-- Embeds `check_dr_replica` (lines 114-135): describe the DR replica;
healthy iff its status is `available`; an exception yields `{healthy: False, error}`. -/
def check_dr_replica (env : Env) : DbCheck × List Call :=
  match env.drReplica with
  | .ok inst =>
      ({ healthy := inst.status == "available", status := some inst.status,
         endpoint := inst.endpoint, read_replica_source := inst.readReplicaSource },
       [.describeDr])
  | .error e => ({ healthy := false, error := some e }, [.describeDr])

/-- Embeds `check_replication_lag` (lines 137-173): healthy iff the metrics response
has at least one datapoint and the last datapoint's `Average` is strictly below 300;
no datapoints or an exception yield `{healthy: False, error}`. -/
def check_replication_lag (env : Env) : LagCheck × List Call :=
  match env.lagData with
  | .ok ds =>
      match ds.getLast? with
      | some latest =>
          ({ healthy := latest < 300, lag_seconds := some latest,
             threshold_seconds := some 300 }, [.getMetrics])
      | none =>
          ({ healthy := false, error := some "No replication lag metrics available" },
           [.getMetrics])
  | .error e => ({ healthy := false, error := some e }, [.getMetrics])

/-- Embeds `check_route53_health` (lines 175-190): a placeholder that always reports
`{healthy: True, status: active}` and makes no call. -/
def check_route53_health : DbCheck :=
  { healthy := true, status := some "active" }

/-- Embeds the `health_status` dict built by `perform_health_check` (lines 64-78):
the four sub-check records plus `overall_status`, which is `healthy` iff the
primary-db, replica and replication-lag sub-checks are all healthy. -/
def health_report (env : Env) : HealthStatus :=
  let p := check_primary_database env
  let r := check_dr_replica env
  let l := check_replication_lag env
  { primary_db := p.1, dr_replica := r.1, replication_lag := l.1,
    route53_health := check_route53_health,
    overall_status :=
      if p.1.healthy && r.1.healthy && l.1.healthy then "healthy" else "unhealthy" }

/-- Embeds `perform_health_check` (lines 60-90): build the report, send a WARNING
notification when the aggregate is unhealthy, and return status 200 either way. -/
def perform_health_check (env : Env) : ProcOut :=
  let hs := health_report env
  { res := .ok ⟨200, .health hs⟩,
    calls := (check_primary_database env).2 ++ (check_dr_replica env).2 ++
      (check_replication_lag env).2,
    notes :=
      if hs.overall_status = "unhealthy" then [⟨"DR Health Check Failed", "WARNING"⟩]
      else [] }

/-- Message of the timeout exception raised by `wait_for_db_status` (line 384). -/
def timeoutMsg (dbId target : String) (maxWait : Nat) : String :=
  s!"Database {dbId} did not reach {target} status within {maxWait} seconds"

/-- Embeds the `while wait_time < max_wait` loop of `wait_for_db_status`
(lines 369-384).  `waitTime` is the accumulated wait, `i` counts the polls already
made (so `poll i` is the status the next describe call returns).  Returns the loop's
outcome together with the total number of polls made. -/
def wait_go (poll : Nat → String) (dbId target : String) (maxWait waitTime i : Nat) :
    Except String Bool × Nat :=
  if waitTime < maxWait then
    if poll i = target then (Except.ok true, i + 1)
    else wait_go poll dbId target maxWait (waitTime + 30) (i + 1)
  else
    (Except.error (timeoutMsg dbId target maxWait), i)
termination_by maxWait - waitTime
decreasing_by omega

/-- Embeds `wait_for_db_status` (lines 369-384): run the poll loop from an
accumulated wait of 0. -/
def wait_for_db_status (poll : Nat → String) (dbId target : String) (maxWait : Nat) :
    Except String Bool × Nat :=
  wait_go poll dbId target maxWait 0 0

/-- Embeds `initiate_failover` (lines 192-235): INFO notification, promote the
replica, wait for `available`, record the DNS step, SUCCESS notification; any
exception triggers an ERROR notification naming how many steps completed and is
re-raised. -/
def initiate_failover (env : Env) : ProcOut :=
  let startNote : Notification := ⟨"Starting DR failover procedure", "INFO"⟩
  let drId := s!"{env.dbIdentifier}-dr-replica"
  match env.promote with
  | .error e =>
      { res := .error e, calls := [.promoteReplica],
        notes := [startNote, ⟨s!"Failover failed at step 0: {e}", "ERROR"⟩],
        steps := [] }
  | .ok _ =>
      match wait_for_db_status env.poll drId "available" 1800 with
      | (.error e, n) =>
          { res := .error e, calls := .promoteReplica :: List.replicate n .describeDr,
            notes := [startNote, ⟨s!"Failover failed at step 1: {e}", "ERROR"⟩],
            steps := ["promoted_replica"] }
      | (.ok _, n) =>
          let steps := ["promoted_replica", "replica_promotion_complete", "dns_updated"]
          { res := .ok ⟨200, .failover "Failover initiated successfully" steps⟩,
            calls := .promoteReplica :: List.replicate n .describeDr,
            notes := [startNote, ⟨"DR Failover completed successfully", "SUCCESS"⟩],
            steps := steps }

/-- Embeds `initiate_failback` (lines 237-276): INFO notification, verify the
primary is healthy (raising if not), record the DNS-revert step, SUCCESS
notification; the replica re-creation step is a comment in the source and makes no
call. -/
def initiate_failback (env : Env) : ProcOut :=
  let startNote : Notification := ⟨"Starting failback procedure", "INFO"⟩
  let p := check_primary_database env
  if p.1.healthy then
    let steps := ["primary_health_verified", "dns_reverted"]
    { res := .ok ⟨200, .failback "Failback completed successfully" steps⟩,
      calls := p.2,
      notes := [startNote, ⟨"Failback completed successfully", "SUCCESS"⟩],
      steps := steps }
  else
    let e := "Primary database is not healthy, cannot failback"
    { res := .error e, calls := p.2,
      notes := [startNote, ⟨s!"Failback failed: {e}", "ERROR"⟩], steps := [] }

/-- Embeds `test_dr_connectivity` (lines 312-326): its `try` body calls
`check_dr_replica` and reports that check's `healthy` flag; if the body raises
(fault injection), the probe's own `except` yields `{success: False, error}`. -/
def test_dr_connectivity (env : Env) : ProbeResult × List Call :=
  match env.drConnFault with
  | some e => ({ success := false, error := some e }, [.describeDr])
  | none =>
      let h := check_dr_replica env
      ({ success := h.1.healthy, details := some h.1 }, h.2)

/-- Embeds `simulate_failover` (lines 328-340): unconditionally successful, lists
the steps it would take, makes no call. -/
def simulate_failover : ProbeResult :=
  { success := true,
    simulated_steps := ["promote_replica", "update_dns", "verify_connectivity"] }

/-- Embeds `test_monitoring_alerts` (lines 342-357): its `try` body sends a
TEST-severity notification and reports success; if the body raises (fault
injection), the probe's own `except` yields `{success: False, error}` and the
notification is not recorded. -/
def test_monitoring_alerts (env : Env) : ProbeResult × List Notification :=
  match env.alertFault with
  | some e => ({ success := false, error := some e }, [])
  | none => ({ success := true, alert_sent := true }, [⟨"DR Test Alert", "TEST"⟩])

/-- Embeds `test_backup_integrity` (lines 359-367): unconditionally successful,
makes no call. -/
def test_backup_integrity : ProbeResult :=
  { success := true, backups_verified := true }

/-- Embeds the `test_results` dict of `test_disaster_recovery` (lines 283-288). -/
def dr_test_report (env : Env) : DrTestReport :=
  { dr_replica_connectivity := (test_dr_connectivity env).1,
    failover_simulation := simulate_failover,
    monitoring_alerts := (test_monitoring_alerts env).1,
    backup_integrity := test_backup_integrity }

/-- Embeds `overall_success` (line 290): the conjunction of the four probes'
`success` flags. -/
def dr_test_overall (env : Env) : Bool :=
  let r := dr_test_report env
  r.dr_replica_connectivity.success && r.failover_simulation.success &&
    r.monitoring_alerts.success && r.backup_integrity.success

/-- Embeds `test_disaster_recovery` (lines 278-310): run the four probes, send an
INFO notification with the PASSED/FAILED verdict, return status 200. -/
def test_disaster_recovery (env : Env) : ProcOut :=
  let r := dr_test_report env
  let ov := dr_test_overall env
  let summary : Notification :=
    ⟨if ov then "DR Test Results: PASSED" else "DR Test Results: FAILED", "INFO"⟩
  { res := .ok ⟨200, .drTest r ov⟩,
    calls := (test_dr_connectivity env).2,
    notes := (test_monitoring_alerts env).2 ++ [summary] }

/-- Embeds the `except` clause of `handler` (lines 49-58) applied to one dispatched
procedure: a raising procedure is converted into a status-500 result carrying
`DR Automation failed: ...`, preceded by an ERROR notification. -/
def finish (p : ProcName) (o : ProcOut) : HandlerOut :=
  match o.res with
  | .ok r => ⟨r, o.calls, o.notes, [p]⟩
  | .error e =>
      let msg := s!"DR Automation failed: {e}"
      ⟨⟨500, .error msg⟩, o.calls, o.notes ++ [⟨msg, "ERROR"⟩], [p]⟩

/-- Embeds `handler` (lines 31-58): read `event.get('action', 'health_check')`,
dispatch on the four recognized tags, raise `Unknown action` otherwise; the
surrounding `try/except` converts any raise into the status-500 error result after
an ERROR notification. -/
def handler (env : Env) (eventAction : Option String) : HandlerOut :=
  let action := eventAction.getD "health_check"
  if action = "health_check" then
    finish .perform_health_check (perform_health_check env)
  else if action = "initiate_failover" then
    finish .initiate_failover (initiate_failover env)
  else if action = "failback" then
    finish .initiate_failback (initiate_failback env)
  else if action = "test_dr" then
    finish .test_disaster_recovery (test_disaster_recovery env)
  else
    let msg := s!"DR Automation failed: Unknown action: {action}"
    ⟨⟨500, .error msg⟩, [], [⟨msg, "ERROR"⟩], []⟩

/-- Number of notifications in a log that carry the given severity tag. -/
def severityCount (sev : String) (ns : List Notification) : Nat :=
  (ns.filter (fun n => n.severity == sev)).length

/-! Concrete environments used by witnesses and counterexamples. -/

/-- Environment in which every collaborator behaves: both instances available, a
small replication lag, a promote call that succeeds, and a poll sequence that
reports `modifying` once and then `available`. -/
def envOk : Env :=
  { primaryDb := .ok ⟨"available", some "primary.example.internal", true, none⟩,
    drReplica := .ok ⟨"available", some "replica.example.internal", false, some "db"⟩,
    lagData := .ok [10],
    promote := .ok (),
    poll := fun i => if 1 ≤ i then "available" else "modifying",
    drConnFault := none,
    alertFault := none,
    dbIdentifier := "db" }

/-- Like `envOk` but the `promote_read_replica` call raises. -/
def envPromoteFail : Env :=
  { envOk with promote := .error "promotion failed" }

/-- Like `envOk` but the primary database reports a non-`available` status. -/
def envPrimaryDown : Env :=
  { envOk with primaryDb := .ok ⟨"stopped", none, true, none⟩ }

/-- Like `envOk` but the metrics response carries a last datapoint of 299 seconds. -/
def envLag299 : Env :=
  { envOk with lagData := .ok [250, 299] }

/-- Like `envOk` but the `test_dr_connectivity` probe's try body raises. -/
def envConnFault : Env :=
  { envOk with drConnFault := some "probe exploded" }

/-! Shared helper lemmas. -/

/-- The primary-database check makes exactly one describe call on every path. -/
theorem check_primary_database_calls (env : Env) :
    (check_primary_database env).2 = [Call.describePrimary] := by
  unfold check_primary_database
  cases env.primaryDb <;> rfl

/-- The handler's except wrapper records exactly the dispatched procedure. -/
theorem finish_dispatched (p : ProcName) (o : ProcOut) :
    (finish p o).dispatched = [p] := by
  unfold finish
  cases o.res <;> rfl

/-- When the first poll that observes the target status is poll `m` (with the loop
entered at an accumulated wait of `30 * i`, polls `0..i-1` already made), the loop
returns `true` after exactly `m + 1` polls. -/
theorem wait_go_hits (poll : Nat → String) (dbId target : String) (m : Nat)
    (hm : m < 60) (hhit : poll m = target) (i : Nat) (hi : i ≤ m)
    (hmiss : ∀ j, i ≤ j → j < m → poll j ≠ target) :
    wait_go poll dbId target 1800 (30 * i) i = (Except.ok true, m + 1) := by
  unfold wait_go
  have h30 : 30 * i < 1800 := by omega
  rw [if_pos h30]
  by_cases hp : poll i = target
  · have him : i = m := by
      by_contra hne
      exact hmiss i le_rfl (by omega) hp
    rw [if_pos hp, him]
  · rw [if_neg hp]
    have hstep : 30 * i + 30 = 30 * (i + 1) := by ring
    have hilt : i < m :=
      lt_of_le_of_ne hi (fun he => hp (by rw [he]; exact hhit))
    rw [hstep]
    exact wait_go_hits poll dbId target m hm hhit (i + 1) (by omega)
      (fun j hj1 hj2 => hmiss j (by omega) hj2)
termination_by m - i

/-- When no poll among the first sixty observes the target status, the loop times
out after exactly sixty polls. -/
theorem wait_go_misses (poll : Nat → String) (dbId target : String)
    (hmiss : ∀ j, j < 60 → poll j ≠ target) (i : Nat) (hi : i ≤ 60) :
    wait_go poll dbId target 1800 (30 * i) i =
      (Except.error (timeoutMsg dbId target 1800), 60) := by
  unfold wait_go
  by_cases h30 : 30 * i < 1800
  · rw [if_pos h30, if_neg (hmiss i (by omega))]
    have hstep : 30 * i + 30 = 30 * (i + 1) := by ring
    rw [hstep]
    exact wait_go_misses poll dbId target hmiss (i + 1) (by omega)
  · rw [if_neg h30]
    have h60 : i = 60 := by omega
    rw [h60]
termination_by 60 - i

/-- The loop never makes more than sixty polls (ceiling 1800, step 30). -/
theorem wait_go_count_le (poll : Nat → String) (dbId target : String) (i : Nat)
    (hi : i ≤ 60) :
    (wait_go poll dbId target 1800 (30 * i) i).2 ≤ 60 := by
  unfold wait_go
  by_cases h30 : 30 * i < 1800
  · rw [if_pos h30]
    by_cases hp : poll i = target
    · rw [if_pos hp]
      show i + 1 ≤ 60
      omega
    · rw [if_neg hp]
      have hstep : 30 * i + 30 = 30 * (i + 1) := by ring
      rw [hstep]
      exact wait_go_count_le poll dbId target (i + 1) (by omega)
  · rw [if_neg h30]
    exact hi
termination_by 60 - i

/-- If some poll among the first sixty observes the target, the full wait returns
`true` within sixty polls. -/
theorem wait_reaches (poll : Nat → String) (dbId target : String)
    (h : ∃ m, m < 60 ∧ poll m = target) :
    ∃ n, n ≤ 60 ∧
      wait_for_db_status poll dbId target 1800 = (Except.ok true, n) := by
  have hm := Nat.find_spec h
  refine ⟨Nat.find h + 1, by omega, ?_⟩
  have h0 : (30 : Nat) * 0 = 0 := by ring
  have := wait_go_hits poll dbId target (Nat.find h) hm.1 hm.2 0 (Nat.zero_le _)
    (fun j _ hj hpj => Nat.find_min h hj ⟨by omega, hpj⟩)
  rw [h0] at this
  exact this

/-! Claim theorems. -/

/-- C3: `perform_health_check` reports `overall_status = "healthy"` iff the
primary-database, replica and replication-lag sub-checks are each healthy (the DNS
sub-check does not appear in the aggregate condition, so its value never affects
it), and the returned status code is 200 regardless of the health outcome. -/
theorem C3_health_aggregate (env : Env) :
    ((health_report env).overall_status = "healthy" ↔
      ((check_primary_database env).1.healthy = true ∧
       (check_dr_replica env).1.healthy = true ∧
       (check_replication_lag env).1.healthy = true))
    ∧ (perform_health_check env).res =
        Except.ok ⟨200, Body.health (health_report env)⟩ := by
  constructor
  · unfold health_report
    by_cases hp : (check_primary_database env).1.healthy = true <;>
      by_cases hr : (check_dr_replica env).1.healthy = true <;>
        by_cases hl : (check_replication_lag env).1.healthy = true <;>
          simp [hp, hr, hl]
  · rfl

/-- C4: the replication-lag sub-check is healthy iff the metrics response has a
last datapoint whose average is strictly below 300 seconds; an empty datapoint list
yields `healthy = false` with a populated error field. -/
theorem C4_replication_lag (env : Env) (ds : List Int)
    (h : env.lagData = Except.ok ds) :
    ((check_replication_lag env).1.healthy = true ↔
      (∃ v, ds.getLast? = some v ∧ v < 300))
    ∧ (ds = [] →
        (check_replication_lag env).1.healthy = false ∧
        (check_replication_lag env).1.error =
          some "No replication lag metrics available") := by
  constructor
  · unfold check_replication_lag
    rw [h]
    dsimp only
    cases hlast : ds.getLast? with
    | none => simp [hlast]
    | some v => simp [hlast, decide_eq_true_iff]
  · intro hds
    subst hds
    unfold check_replication_lag
    rw [h]
    simp

/-- Witness for C4: with a metrics response whose last datapoint averages 299
seconds, the sub-check reports healthy. -/
theorem C4_replication_lag_witness :
    (check_replication_lag envLag299).1.healthy = true :=
  (C4_replication_lag envLag299 [250, 299] rfl).1.mpr ⟨299, by decide, by decide⟩

/-- C8: `wait_for_db_status` with the 1800-second ceiling and 30-second step always
terminates with one of two outcomes: it returns `true` after `m + 1` polls when
poll `m` (with `m < 60`) is the first to observe the target status, and it raises
the timeout exception after exactly sixty polls when no poll among the first sixty
observes it; in every case it makes at most sixty polls, never polling beyond the
ceiling. -/
theorem C8_wait_terminates (poll : Nat → String) (dbId target : String) :
    ((wait_for_db_status poll dbId target 1800).2 ≤ 60)
    ∧ (∀ m, m < 60 → poll m = target → (∀ j, j < m → poll j ≠ target) →
        wait_for_db_status poll dbId target 1800 = (Except.ok true, m + 1))
    ∧ ((∀ j, j < 60 → poll j ≠ target) →
        wait_for_db_status poll dbId target 1800 =
          (Except.error (timeoutMsg dbId target 1800), 60)) := by
  have h0 : (30 : Nat) * 0 = 0 := by ring
  refine ⟨?_, ?_, ?_⟩
  · have hle := wait_go_count_le poll dbId target 0 (by omega)
    rw [h0] at hle
    exact hle
  · intro m hm hp hmiss
    have hres := wait_go_hits poll dbId target m hm hp 0 (Nat.zero_le _)
      (fun j _ hj => hmiss j hj)
    rw [h0] at hres
    exact hres
  · intro hmiss
    have hres := wait_go_misses poll dbId target hmiss 0 (by omega)
    rw [h0] at hres
    exact hres

/-- Witness for C8: a poll sequence that reports `modifying` and then `available`
makes the loop return `true` after two polls. -/
theorem C8_wait_terminates_witness :
    wait_for_db_status (fun i => if 1 ≤ i then "available" else "modifying")
      "db-dr-replica" "available" 1800 = (Except.ok true, 2) :=
  (C8_wait_terminates (fun i => if 1 ≤ i then "available" else "modifying")
      "db-dr-replica" "available").2.1 1 (by omega) (by decide) (by decide)

/-- C9: an event with no `action` key defaults to `health_check` — the handler
behaves exactly as on an explicit `health_check` action, dispatches the
health-check procedure, and returns its 200 result instead of an InvalidAction
failure. -/
theorem C9_default_action (env : Env) :
    handler env none = handler env (some "health_check")
    ∧ (handler env none).dispatched = [ProcName.perform_health_check]
    ∧ (handler env none).result = ⟨200, Body.health (health_report env)⟩ := by
  refine ⟨rfl, ?_, rfl⟩
  simp [handler, finish_dispatched]

/-- Counterexample for C1: the action tag `failover` — a member of the claim's
recognized set — does not route to the failover procedure; it takes the
InvalidAction path, returning status 500 with no procedure dispatched and no
collaborator invoked. -/
theorem C1_counterexample :
    (handler envOk (some "failover")).result.statusCode = 500
    ∧ (handler envOk (some "failover")).dispatched = []
    ∧ (handler envOk (some "failover")).calls = [] := by
  decide

/-- C1 (amended): the recognized action tags are `health_check`,
`initiate_failover`, `failback` and `test_dr`; each routes to the correspondingly
named procedure exactly once, and every other action string — including
`failover` — yields the status-500 InvalidAction result with no collaborator
invoked and only the ERROR notification published. -/
theorem C1_amended_dispatch (env : Env) (a : String) :
    ((handler env (some "health_check")).dispatched = [ProcName.perform_health_check])
    ∧ ((handler env (some "initiate_failover")).dispatched =
        [ProcName.initiate_failover])
    ∧ ((handler env (some "failback")).dispatched = [ProcName.initiate_failback])
    ∧ ((handler env (some "test_dr")).dispatched = [ProcName.test_disaster_recovery])
    ∧ (a ∉ ["health_check", "initiate_failover", "failback", "test_dr"] →
        (handler env (some a)).dispatched = []
        ∧ (handler env (some a)).result.statusCode = 500
        ∧ (handler env (some a)).calls = []
        ∧ (handler env (some a)).notes =
            [⟨s!"DR Automation failed: Unknown action: {a}", "ERROR"⟩]) := by
  refine ⟨?_, ?_, ?_, ?_, ?_⟩
  · simp [handler, finish_dispatched]
  · simp [handler, finish_dispatched]
  · simp [handler, finish_dispatched]
  · simp [handler, finish_dispatched]
  · intro h
    simp only [List.mem_cons, List.not_mem_nil, or_false, not_or] at h
    obtain ⟨h1, h2, h3, h4⟩ := h
    refine ⟨?_, ?_, ?_, ?_⟩ <;> simp [handler, h1, h2, h3, h4]

/-- Witness for C1 (amended): a concrete unrecognized action tag takes the
InvalidAction path. -/
theorem C1_amended_dispatch_witness :
    (handler envOk (some "reboot")).dispatched = []
    ∧ (handler envOk (some "reboot")).result.statusCode = 500
    ∧ (handler envOk (some "reboot")).calls = [] := by
  have h := (C1_amended_dispatch envOk "reboot").2.2.2.2 (by decide)
  exact ⟨h.1, h.2.1, h.2.2.1⟩

/-- Counterexample for C2: with a promote call that raises, the full invocation
publishes two ERROR notifications — one from `initiate_failover`'s except clause
and one from the handler's — not exactly one. -/
theorem C2_counterexample :
    severityCount "ERROR"
      (handler envPromoteFail (some "initiate_failover")).notes ≠ 1 := by
  decide

/-- C2 (amended): if the promote call raises, `steps_completed` remains empty and
the exception propagates out of `initiate_failover` to the top-level handler, but
the failure is reported to the notification channel twice, not once:
`initiate_failover` itself publishes exactly one ERROR notification and the
top-level handler publishes a second one while converting the exception into the
status-500 result. -/
theorem C2_amended_failover_promote (env : Env) (e : String)
    (h : env.promote = Except.error e) :
    (initiate_failover env).steps = []
    ∧ (initiate_failover env).res = Except.error e
    ∧ severityCount "ERROR" (initiate_failover env).notes = 1
    ∧ severityCount "ERROR" (handler env (some "initiate_failover")).notes = 2
    ∧ (handler env (some "initiate_failover")).result.statusCode = 500 := by
  refine ⟨?_, ?_, ?_, ?_, ?_⟩ <;>
    simp [handler, initiate_failover, finish, severityCount, h, List.filter]

/-- Witness for C2 (amended): a concrete environment whose promote call raises. -/
theorem C2_amended_failover_promote_witness :
    severityCount "ERROR"
      (handler envPromoteFail (some "initiate_failover")).notes = 2 :=
  (C2_amended_failover_promote envPromoteFail "promotion failed" rfl).2.2.2.1

/-- C5: when the promote call succeeds and some poll among the first sixty observes
`available`, `initiate_failover` returns status 200 with `steps_completed` exactly
`[promoted_replica, replica_promotion_complete, dns_updated]` and exactly one
SUCCESS notification is published, both by the procedure and across the full
handler invocation. -/
theorem C5_failover_success (env : Env) (h1 : env.promote = Except.ok ())
    (h2 : ∃ m, m < 60 ∧ env.poll m = "available") :
    (initiate_failover env).res =
        Except.ok ⟨200, Body.failover "Failover initiated successfully"
          ["promoted_replica", "replica_promotion_complete", "dns_updated"]⟩
    ∧ (initiate_failover env).steps =
        ["promoted_replica", "replica_promotion_complete", "dns_updated"]
    ∧ severityCount "SUCCESS" (initiate_failover env).notes = 1
    ∧ severityCount "SUCCESS" (handler env (some "initiate_failover")).notes = 1
    ∧ (handler env (some "initiate_failover")).result.statusCode = 200 := by
  obtain ⟨n, hn, hw⟩ :=
    wait_reaches env.poll s!"{env.dbIdentifier}-dr-replica" "available" h2
  refine ⟨?_, ?_, ?_, ?_, ?_⟩ <;>
    simp [handler, initiate_failover, finish, severityCount, h1, hw, List.filter]

/-- Witness for C5: the all-healthy environment, whose poll sequence reports
`modifying` and then `available`. -/
theorem C5_failover_success_witness :
    (initiate_failover envOk).steps =
      ["promoted_replica", "replica_promotion_complete", "dns_updated"]
    ∧ severityCount "SUCCESS" (initiate_failover envOk).notes = 1 := by
  have h := C5_failover_success envOk rfl ⟨1, by omega, by decide⟩
  exact ⟨h.2.1, h.2.2.1⟩

/-- C6: if the primary-database check reports unhealthy, `initiate_failback`
raises the explanatory exception with an empty `steps_completed`, and its only
collaborator call is the read-only primary describe — no promote, replica-creation
or DNS-write call is made. -/
theorem C6_failback_guard (env : Env)
    (h : (check_primary_database env).1.healthy = false) :
    (initiate_failback env).res =
        Except.error "Primary database is not healthy, cannot failback"
    ∧ (initiate_failback env).steps = []
    ∧ (initiate_failback env).calls = [Call.describePrimary]
    ∧ Call.promoteReplica ∉ (initiate_failback env).calls
    ∧ Call.createReplica ∉ (initiate_failback env).calls
    ∧ Call.dnsWrite ∉ (initiate_failback env).calls := by
  refine ⟨?_, ?_, ?_, ?_, ?_, ?_⟩ <;>
    simp [initiate_failback, h, check_primary_database_calls]

/-- Witness for C6: a primary database whose status is not `available`. -/
theorem C6_failback_guard_witness :
    (initiate_failback envPrimaryDown).res =
      Except.error "Primary database is not healthy, cannot failback"
    ∧ (initiate_failback envPrimaryDown).calls = [Call.describePrimary] := by
  have h := C6_failback_guard envPrimaryDown (by decide)
  exact ⟨h.1, h.2.2.1⟩

/-- C7: `test_disaster_recovery` aggregates `overall_success` as the conjunction
of the four probes' success flags; a probe whose try body raises yields
`{success: false, error}` while the other probes' results are still present and
populated in the report; the result is always status 200 carrying the full report,
and the final notification published is the INFO verdict. -/
theorem C7_test_dr_report (env : Env) :
    (dr_test_overall env =
      ((dr_test_report env).dr_replica_connectivity.success &&
       (dr_test_report env).failover_simulation.success &&
       (dr_test_report env).monitoring_alerts.success &&
       (dr_test_report env).backup_integrity.success))
    ∧ (∀ e, env.drConnFault = some e →
        (dr_test_report env).dr_replica_connectivity =
          { success := false, error := some e }
        ∧ dr_test_overall env = false
        ∧ (dr_test_report env).failover_simulation = simulate_failover
        ∧ (dr_test_report env).monitoring_alerts = (test_monitoring_alerts env).1
        ∧ (dr_test_report env).backup_integrity = test_backup_integrity)
    ∧ (∀ e, env.alertFault = some e →
        (dr_test_report env).monitoring_alerts =
          { success := false, error := some e })
    ∧ (test_disaster_recovery env).res =
        Except.ok ⟨200, Body.drTest (dr_test_report env) (dr_test_overall env)⟩
    ∧ (test_disaster_recovery env).notes.getLast? =
        some ⟨if dr_test_overall env then "DR Test Results: PASSED"
              else "DR Test Results: FAILED", "INFO"⟩ := by
  refine ⟨rfl, ?_, ?_, rfl, ?_⟩
  · intro e he
    refine ⟨?_, ?_, rfl, rfl, rfl⟩
    · simp [dr_test_report, test_dr_connectivity, he]
    · simp [dr_test_overall, dr_test_report, test_dr_connectivity, he]
  · intro e he
    simp [dr_test_report, test_monitoring_alerts, he]
  · cases halert : env.alertFault <;>
      simp [test_disaster_recovery, test_monitoring_alerts, halert]

/-- Witness for C7: with the connectivity probe's try body raising, that probe
reports the failure, the aggregate is false, and the backup probe's result is
still present. -/
theorem C7_test_dr_report_witness :
    (dr_test_report envConnFault).dr_replica_connectivity =
      { success := false, error := some "probe exploded" }
    ∧ dr_test_overall envConnFault = false
    ∧ (dr_test_report envConnFault).backup_integrity = test_backup_integrity := by
  have h := (C7_test_dr_report envConnFault).2.1 "probe exploded" rfl
  exact ⟨h.1, h.2.1, h.2.2.2.2⟩

/-- C10: whenever the primary-database check reports healthy,
`initiate_failback` returns status 200 with `steps_completed` exactly
`[primary_health_verified, dns_reverted]`; and on every path its control-plane
calls are exactly the one primary describe — no replica-creation, promotion or
DNS-write call, so its only other external effects are the notification-sink
publications. -/
theorem C10_failback_success_frame (env : Env)
    (h : (check_primary_database env).1.healthy = true) :
    (initiate_failback env).res =
        Except.ok ⟨200, Body.failback "Failback completed successfully"
          ["primary_health_verified", "dns_reverted"]⟩
    ∧ (initiate_failback env).steps = ["primary_health_verified", "dns_reverted"]
    ∧ (handler env (some "failback")).result.statusCode = 200
    ∧ ∀ env2 : Env, (initiate_failback env2).calls = [Call.describePrimary] := by
  refine ⟨?_, ?_, ?_, ?_⟩
  · simp [initiate_failback, h]
  · simp [initiate_failback, h]
  · simp [handler, finish, initiate_failback, h]
  · intro env2
    by_cases h2 : (check_primary_database env2).1.healthy = true <;>
      simp [initiate_failback, h2, check_primary_database_calls]

/-- Witness for C10: the all-healthy environment. -/
theorem C10_failback_success_frame_witness :
    (initiate_failback envOk).steps = ["primary_health_verified", "dns_reverted"]
    ∧ (initiate_failback envOk).calls = [Call.describePrimary] := by
  have h := C10_failback_success_frame envOk (by decide)
  exact ⟨h.2.1, h.2.2.2 envOk⟩

end DrAuto
